import Mathlib

/-
Verification of the odds-normalization and matching core of the
kalshi-ev-finder repository.  Every definition below is a shallow
embedding of a Python function of the repository, translated over the
rational numbers (exact arithmetic in place of floating point) and
over lists of plain records in place of pandas data frames.
-/

namespace KalshiEV

/-- Embedding of `american_to_probability` (src/ev_calculator.py lines 45-50,
and the identical inline conversions in src/odds_fetcher.py lines 251-254 and
src/odds_api_collector.py lines 131-134): American odds to implied
probability.  The Python function has no zero-odds guard: `odds == 0` falls
into the `else` branch. -/
def american_to_probability (odds : ℤ) : ℚ :=
  if 0 < odds then 100 / ((odds : ℚ) + 100)
  else |(odds : ℚ)| / (|(odds : ℚ)| + 100)

/-- The dict returned by `remove_vig_from_odds` (src/ev_calculator.py
lines 53-90).  `vig_percent` stores `vig * 100` exactly as the source does. -/
structure VigResult where
  true_probability : ℚ
  raw_probability : ℚ
  vig_percent : ℚ
  total_implied : ℚ
deriving Repr, DecidableEq

/-- Core of `remove_vig_from_odds` (src/ev_calculator.py lines 64-90), written
on the two implied probabilities `team_implied` and `opponent_implied` that the
source computes on lines 65-66.  The local `total_implied` of the source is
inlined. -/
def remove_vig_core (team_implied opponent_implied : ℚ) : VigResult :=
  if 1 < team_implied + opponent_implied then
    { true_probability := team_implied / (team_implied + opponent_implied)
      raw_probability := team_implied
      vig_percent := (team_implied + opponent_implied - 1) * 100
      total_implied := team_implied + opponent_implied }
  else
    { true_probability := team_implied
      raw_probability := team_implied
      vig_percent := 0
      total_implied := team_implied + opponent_implied }

/-- Embedding of `remove_vig_from_odds` (src/ev_calculator.py lines 53-90):
convert both odds to implied probabilities, then remove the vig. -/
def remove_vig_from_odds (team_odds opponent_odds : ℤ) : VigResult :=
  remove_vig_core (american_to_probability team_odds)
    (american_to_probability opponent_odds)

/-- The dict returned by `calculate_ev` (src/ev_calculator.py lines 93-133). -/
structure EVResult where
  kalshi_price_cents : ℚ
  kalshi_implied_prob : ℚ
  sportsbook_odds : ℤ
  true_prob : ℚ
  bet_amount : ℚ
  cost : ℚ
  expected_payout : ℚ
  ev_dollars : ℚ
  ev_percent : ℚ
  is_positive_ev : Bool
  edge : ℚ
deriving Repr, DecidableEq

/-- Embedding of `calculate_ev` (src/ev_calculator.py lines 93-133).  Note
that the source takes `true_prob` directly as the implied probability of the
sportsbook odds (line 106) without removing the vig, and guards the percent
with `if cost > 0 else 0` (line 119). -/
def calculate_ev (kalshi_ask_cents : ℚ) (sportsbook_american_odds : ℤ)
    (bet_amount : ℚ) : EVResult :=
  let true_prob := american_to_probability sportsbook_american_odds
  let kalshi_prob := kalshi_ask_cents / 100
  let cost := kalshi_ask_cents / 100 * bet_amount
  let expected_payout := true_prob * bet_amount
  let ev := expected_payout - cost
  { kalshi_price_cents := kalshi_ask_cents
    kalshi_implied_prob := kalshi_prob
    sportsbook_odds := sportsbook_american_odds
    true_prob := true_prob
    bet_amount := bet_amount
    cost := cost
    expected_payout := expected_payout
    ev_dollars := ev
    ev_percent := if 0 < cost then ev / cost * 100 else 0
    is_positive_ev := decide (0 < ev)
    edge := true_prob - kalshi_prob }

/-- Truncation toward zero, the semantics of the Python `int()` casts on
lines 262 and 264 of src/odds_fetcher.py. -/
def pytrunc (q : ℚ) : ℤ := if 0 ≤ q then ⌊q⌋ else ⌈q⌉

/-- The tail of `_calculate_average_odds` (src/odds_fetcher.py lines 260-266):
convert an averaged probability back to American odds, negative when the
probability is at least one half, positive otherwise. -/
def prob_to_american (avg_prob : ℚ) : ℤ :=
  if 1 / 2 ≤ avg_prob then pytrunc (-avg_prob / (1 - avg_prob) * 100)
  else pytrunc ((1 - avg_prob) / avg_prob * 100)

/-- Embedding of `_calculate_average_odds` (src/odds_fetcher.py lines
240-266): empty list gives 0, otherwise each American odds is converted to a
probability, the probabilities are averaged, and the mean is converted back. -/
def calculate_average_odds (odds_list : List ℤ) : ℤ :=
  match odds_list with
  | [] => 0
  | _ :: _ =>
    prob_to_american ((odds_list.map american_to_probability).sum /
      ((odds_list.map american_to_probability).length : ℚ))

/-- Spread-line conversion of `create_comprehensive_raw_data`
(src/create_comprehensive_raw_data.py lines 76-82): a whole-number exchange
line is shifted down by half a point, any other line is used directly.  The
Python integrality test `kalshi_line % 1 == 0` is rendered as equality with
the floor. -/
def comp_converted_line (kalshi_line : ℚ) : ℚ :=
  if (⌊kalshi_line⌋ : ℚ) = kalshi_line then kalshi_line - 1/2 else kalshi_line

/-- Sign step of the same conversion (src/create_comprehensive_raw_data.py
lines 84-89): the Yes side maps to the negative of the converted line, the No
side to the positive. -/
def comp_sportsbook_line (kalshi_line : ℚ) (side : String) : ℚ :=
  if side = "Yes" then -(comp_converted_line kalshi_line)
  else comp_converted_line kalshi_line

/-- Spread-line conversion used by `_match_spread` (src/data_processor.py
lines 413-421): every Kalshi line, whole or half-point, is converted as
`-(kalshi_line - 0.5)`. -/
def match_spread_line (kalshi_line : ℚ) : ℚ := -(kalshi_line - 1/2)

/-- Spread grading shared by `_update_sportsbook_results`
(src/data_processor.py lines 305-319) and `_update_sportsbook_odds`
(src/automated_results.py lines 287-303): the graded result is 1 when
`team_score + spread_line > opponent_score` and 0 otherwise. -/
def spread_result (team_score : ℤ) (spread_line : ℚ) (opponent_score : ℤ) : ℤ :=
  if (opponent_score : ℚ) < (team_score : ℚ) + spread_line then 1 else 0

/-- Lower-cased character list of a string, for the case-insensitive
`str.contains(..., case=False)` comparisons of the source. -/
def lower_list (s : String) : List Char := s.toList.map Char.toLower

/-- Whether `needle` starts the list `hay`. -/
def starts_with : List Char → List Char → Bool
  | [], _ => true
  | _ :: _, [] => false
  | a :: as, b :: bs => a == b && starts_with as bs

/-- Whether `needle` occurs contiguously inside `hay`. -/
def contains_seq (needle : List Char) : List Char → Bool
  | [] => needle.isEmpty
  | c :: rest => starts_with needle (c :: rest) || contains_seq needle rest

/-- Case-insensitive substring test, the embedding of the pandas
`series.str.contains(needle, case=False)` filters of src/data_processor.py. -/
def str_contains_ci (hay needle : String) : Bool :=
  contains_seq (lower_list needle) (lower_list hay)

/-- Split a character list on spaces, keeping word order. -/
def split_ws (cs : List Char) : List (List Char) :=
  match cs with
  | [] => [[]]
  | c :: rest =>
    if c = ' ' then [] :: split_ws rest
    else
      match split_ws rest with
      | [] => [[c]]
      | w :: ws => (c :: w) :: ws

/-- The Python `name.split()[-1]` idiom of the matchers: the last
space-separated word of a (single-spaced) team name, typically the franchise
nickname. -/
def last_word (s : String) : String :=
  String.mk ((split_ws s.toList).getLastD [])

/-- One sportsbook entry of sportsbook_odds.xlsx as produced by
src/odds_api_collector.py, restricted to the columns the moneyline matcher
reads. -/
structure SBRow where
  bet_type : String
  away_team : String
  home_team : String
  team : String
  bookmaker : String
  american_odds : ℤ
  implied_prob_vig_adj : ℚ
deriving Repr

/-- One Kalshi entry of kalshi_all_markets.xlsx as produced by
src/nfl_markets.py, restricted to the columns the moneyline matcher reads. -/
structure KalshiRow where
  bet_type : String
  away_team : String
  home_team : String
  team : String
  kalshi_probability : ℚ
  yes_bid : ℤ
  yes_ask : ℤ
deriving Repr

/-- One matched pair as built by `_create_matched_row`
(src/data_processor.py lines 477-506), restricted to the fields the
multiplicity claim is about. -/
structure MatchedRow where
  team_side : String
  bookmaker : String
  kalshi_probability : ℚ
  sportsbook_probability : ℚ
  sportsbook_odds : ℤ
deriving Repr

/-- The row filter of `_match_moneyline` (src/data_processor.py lines
400-405): same bet type, fuzzy containment of the last word of away team,
home team and team side. -/
def ml_pred (k : KalshiRow) (sb : SBRow) : Bool :=
  sb.bet_type == "moneyline" &&
  str_contains_ci sb.away_team (last_word k.away_team) &&
  str_contains_ci sb.home_team (last_word k.home_team) &&
  str_contains_ci sb.team (last_word k.team)

/-- Embedding of `_create_matched_row` (src/data_processor.py lines
477-506). -/
def create_matched_row (k : KalshiRow) (sb : SBRow) : MatchedRow :=
  { team_side := sb.team
    bookmaker := sb.bookmaker
    kalshi_probability := k.kalshi_probability
    sportsbook_probability := sb.implied_prob_vig_adj
    sportsbook_odds := sb.american_odds }

/-- Embedding of `_match_moneyline` (src/data_processor.py lines 393-411):
filter the sportsbook rows with `ml_pred` and build one matched row from
every row that passes, one per bookmaker. -/
def match_moneyline (k : KalshiRow) (sportsbook_df : List SBRow) : List MatchedRow :=
  (sportsbook_df.filter (fun sb => ml_pred k sb)).map (fun sb => create_matched_row k sb)

/-- Concrete exchange quote for the C5 witness. -/
def c5_exchange_quote : KalshiRow :=
  { bet_type := "moneyline", away_team := "Denver Broncos",
    home_team := "Kansas City Chiefs", team := "Denver Broncos",
    kalshi_probability := 48/100, yes_bid := 47, yes_ask := 48 }

/-- Concrete sportsbook quote for the C5 witness, one per bookmaker. -/
def c5_book_quote (bm : String) : SBRow :=
  { bet_type := "moneyline", away_team := "Denver Broncos",
    home_team := "Kansas City Chiefs", team := "Denver Broncos",
    bookmaker := bm, american_odds := -110, implied_prob_vig_adj := 1/2 }

/-- Three bookmakers quoting the same side of the same game. -/
def c5_sportsbook_quotes : List SBRow :=
  [c5_book_quote "draftkings", c5_book_quote "fanduel", c5_book_quote "betmgm"]

/-- One output row of `collect_all_kalshi_markets_to_excel`
(src/nfl_markets.py lines 341-405), restricted to the price and probability
columns. -/
structure MarketRow where
  side : String
  kalshi_probability : ℚ
  yes_bid : ℤ
  yes_ask : ℤ
deriving Repr

/-- The Yes-side row appended for a spread or total market
(src/nfl_markets.py lines 341-366): the probability comes from the yes bid,
patched to 50 when the bid is zero. -/
def kalshi_yes_row (b a : ℤ) : MarketRow :=
  let yes_price := if b = 0 then 50 else b
  { side := "Yes"
    kalshi_probability := (yes_price : ℚ) / 100
    yes_bid := b
    yes_ask := a }

/-- The synthesized No-side row for the same market (src/nfl_markets.py
lines 369-405): complement probability, complemented prices with bid and ask
swapped. -/
def kalshi_no_row (b a : ℤ) : MarketRow :=
  let yes_price := if b = 0 then 50 else b
  { side := "No"
    kalshi_probability := 1 - (yes_price : ℚ) / 100
    yes_bid := 100 - a
    yes_ask := 100 - b }

theorem remove_vig_core_of_gt {pa pb : ℚ} (h : 1 < pa + pb) :
    remove_vig_core pa pb =
      { true_probability := pa / (pa + pb)
        raw_probability := pa
        vig_percent := (pa + pb - 1) * 100
        total_implied := pa + pb } := by
  unfold remove_vig_core
  rw [if_pos h]

theorem remove_vig_core_of_le {pa pb : ℚ} (h : pa + pb ≤ 1) :
    remove_vig_core pa pb =
      { true_probability := pa
        raw_probability := pa
        vig_percent := 0
        total_implied := pa + pb } := by
  unfold remove_vig_core
  rw [if_neg (not_lt.mpr h)]

/-- Claim C1: for probabilities `prob_a, prob_b` in `(0,1)`, `remove_vig`
computes `total = prob_a + prob_b`; when `total > 1` it returns
`fair_a = prob_a/total` and `fair_b = prob_b/total` (so `fair_a + fair_b = 1`
and the odds between `fair_a` and `fair_b` equal those between `prob_a` and
`prob_b`), with `vig = total - 1` (stored as `vig_percent = vig * 100`); when
`total <= 1` it returns the raw probabilities unchanged with `vig = 0`, as a
defined result, not an error. -/
theorem C1_remove_vig_invariant (pa pb : ℚ)
    (ha0 : 0 < pa) (ha1 : pa < 1) (hb0 : 0 < pb) (hb1 : pb < 1) :
    (1 < pa + pb →
      (remove_vig_core pa pb).true_probability = pa / (pa + pb) ∧
      (remove_vig_core pb pa).true_probability = pb / (pa + pb) ∧
      (remove_vig_core pa pb).true_probability
        + (remove_vig_core pb pa).true_probability = 1 ∧
      (remove_vig_core pa pb).true_probability
        / (remove_vig_core pb pa).true_probability = pa / pb ∧
      (remove_vig_core pa pb).vig_percent = (pa + pb - 1) * 100) ∧
    (pa + pb ≤ 1 →
      (remove_vig_core pa pb).true_probability = pa ∧
      (remove_vig_core pa pb).raw_probability = pa ∧
      (remove_vig_core pa pb).vig_percent = 0) := by
  have ht : (0 : ℚ) < pa + pb := by linarith
  have htne : pa + pb ≠ 0 := ne_of_gt ht
  have hbne : pb ≠ 0 := ne_of_gt hb0
  constructor
  · intro h
    have h2 : 1 < pb + pa := by linarith
    rw [remove_vig_core_of_gt h, remove_vig_core_of_gt h2]
    refine ⟨rfl, ?_, ?_, ?_, rfl⟩
    · show pb / (pb + pa) = pb / (pa + pb)
      rw [add_comm pb pa]
    · show pa / (pa + pb) + pb / (pb + pa) = 1
      rw [add_comm pb pa, div_add_div_same, div_self htne]
    · show pa / (pa + pb) / (pb / (pb + pa)) = pa / pb
      rw [add_comm pb pa]
      field_simp
  · intro h
    rw [remove_vig_core_of_le h]
    exact ⟨rfl, rfl, rfl⟩

/-- Witness for C1 at concrete inputs: two -110 sides (implied 11/21 each,
total 22/21 > 1) normalize to fair probability 1/2; a degenerate pair
(2/5, 2/5) with total 4/5 <= 1 is returned unchanged with zero vig. -/
theorem C1_remove_vig_invariant_witness :
    (remove_vig_core (11/21) (11/21)).true_probability = 1/2 ∧
    (remove_vig_core (2/5) (2/5)).true_probability = 2/5 ∧
    (remove_vig_core (2/5) (2/5)).vig_percent = 0 := by
  have h1 := (C1_remove_vig_invariant (11/21) (11/21)
    (by norm_num) (by norm_num) (by norm_num) (by norm_num)).1 (by norm_num)
  have h2 := (C1_remove_vig_invariant (2/5) (2/5)
    (by norm_num) (by norm_num) (by norm_num) (by norm_num)).2 (by norm_num)
  refine ⟨?_, h2.1, h2.2.2⟩
  rw [h1.1]
  norm_num

/-- Counterexample for claim C4: the claim states that
`american_to_probability` fails with `InvalidOddsError` on `odds == 0` and
never returns a probability there.  The source has no such guard: zero odds
take the `else` branch and the call returns the value `0/(0+100) = 0.0`. -/
theorem C4_zero_odds_counterexample : american_to_probability 0 = 0 := by
  unfold american_to_probability
  norm_num

/-- Claim C4 as amended: `american_to_probability` returns `100/(odds+100)`
for `odds > 0` and `|odds|/(|odds|+100)` for `odds < 0`; for `odds == 0` it
does not raise any error but returns `0.0` through the `else` branch. -/
theorem C4_american_to_probability_amended (o : ℤ) :
    (0 < o → american_to_probability o = 100 / ((o : ℚ) + 100)) ∧
    (o < 0 → american_to_probability o = |(o : ℚ)| / (|(o : ℚ)| + 100)) ∧
    american_to_probability 0 = 0 := by
  refine ⟨fun h => ?_, fun h => ?_, by unfold american_to_probability; norm_num⟩
  · unfold american_to_probability
    rw [if_pos h]
  · unfold american_to_probability
    rw [if_neg (by omega : ¬ 0 < o)]

/-- Witness for C4 at concrete inputs +150 and -110. -/
theorem C4_american_to_probability_amended_witness :
    american_to_probability 150 = 2/5 ∧ american_to_probability (-110) = 11/21 := by
  have h1 := (C4_american_to_probability_amended 150).1 (by norm_num)
  have h2 := (C4_american_to_probability_amended (-110)).2.1 (by norm_num)
  constructor
  · rw [h1]; norm_num
  · rw [h2]; norm_num

theorem calculate_ev_cost (c : ℚ) (o : ℤ) (b : ℚ) :
    (calculate_ev c o b).cost = c / 100 * b := rfl

theorem calculate_ev_true_prob (c : ℚ) (o : ℤ) (b : ℚ) :
    (calculate_ev c o b).true_prob = american_to_probability o := rfl

theorem calculate_ev_edge (c : ℚ) (o : ℤ) (b : ℚ) :
    (calculate_ev c o b).edge = american_to_probability o - c / 100 := rfl

theorem calculate_ev_ev_dollars (c : ℚ) (o : ℤ) (b : ℚ) :
    (calculate_ev c o b).ev_dollars =
      american_to_probability o * b - c / 100 * b := rfl

theorem calculate_ev_ev_percent (c : ℚ) (o : ℤ) (b : ℚ) :
    (calculate_ev c o b).ev_percent =
      if 0 < c / 100 * b then
        (american_to_probability o * b - c / 100 * b) / (c / 100 * b) * 100
      else 0 := rfl

theorem calculate_ev_is_positive (c : ℚ) (o : ℤ) (b : ℚ) :
    (calculate_ev c o b).is_positive_ev =
      decide (0 < american_to_probability o * b - c / 100 * b) := rfl

theorem american_to_probability_neg110 : american_to_probability (-110) = 11 / 21 := by
  unfold american_to_probability
  norm_num

/-- Counterexample for claim C2: in the end-to-end scenario (exchange ask 48,
sportsbook -110 on each side, bet 10) the probability `calculate_ev` uses is
the raw implied probability 11/21 of -110, not the vig-removed 1/2, and the
edge it computes is 23/525 = 0.0438..., which is not within 0.01 of the
claimed 0.5 - 0.48 = 0.02. -/
theorem C2_scenario_counterexample :
    (calculate_ev 48 (-110) 10).true_prob ≠ 1 / 2 ∧
    ¬ |(calculate_ev 48 (-110) 10).edge - 2 / 100| ≤ 1 / 100 := by
  rw [ne_eq, calculate_ev_true_prob, calculate_ev_edge, american_to_probability_neg110]
  norm_num [abs_sub_lt_iff, abs_le]

/-- Claim C2 as amended: `calculate_ev` does not remove the vig; for the
scenario (exchange quote 48 cents against -110 / -110 sportsbook quotes,
bet 10) the probability used is the raw implied probability 11/21 = 0.5238...
of -110, the edge is 11/21 - 48/100 = 23/525 = 0.0438..., the EV percentage
575/63 is greater than zero, and the pair is classified positive EV.  The
vig-removed fair probability of the same -110 / -110 pair is 1/2, as the
unused `remove_vig_from_odds` confirms. -/
theorem C2_scenario_amended :
    (calculate_ev 48 (-110) 10).true_prob = 11 / 21 ∧
    (calculate_ev 48 (-110) 10).edge = 23 / 525 ∧
    (calculate_ev 48 (-110) 10).ev_percent = 575 / 63 ∧
    0 < (calculate_ev 48 (-110) 10).ev_percent ∧
    (calculate_ev 48 (-110) 10).is_positive_ev = true ∧
    (remove_vig_from_odds (-110) (-110)).true_probability = 1 / 2 := by
  have hvig : (remove_vig_from_odds (-110) (-110)).true_probability = 1 / 2 := by
    unfold remove_vig_from_odds
    rw [american_to_probability_neg110, remove_vig_core_of_gt (by norm_num)]
    show (11 / 21 : ℚ) / (11 / 21 + 11 / 21) = 1 / 2
    norm_num
  refine ⟨?_, ?_, ?_, ?_, ?_, hvig⟩
  · rw [calculate_ev_true_prob, american_to_probability_neg110]
  · rw [calculate_ev_edge, american_to_probability_neg110]
    norm_num
  · rw [calculate_ev_ev_percent, american_to_probability_neg110]
    norm_num
  · rw [calculate_ev_ev_percent, american_to_probability_neg110]
    norm_num
  · rw [calculate_ev_is_positive, american_to_probability_neg110]
    norm_num

/-- Claim C7: whenever the cost is zero (zero exchange price or zero bet
amount), `calculate_ev` returns `ev_percent = 0` through the guarded branch
and performs no division; whenever the cost is positive it returns
`ev_percent = ev_dollars / cost * 100`. -/
theorem C7_ev_percent_guard (c : ℚ) (o : ℤ) (b : ℚ) :
    ((c = 0 ∨ b = 0) → (calculate_ev c o b).ev_percent = 0) ∧
    (0 < (calculate_ev c o b).cost →
      (calculate_ev c o b).ev_percent =
        (calculate_ev c o b).ev_dollars / (calculate_ev c o b).cost * 100) := by
  constructor
  · intro h
    rw [calculate_ev_ev_percent]
    have hc : c / 100 * b = 0 := by
      rcases h with h | h <;> rw [h] <;> ring
    rw [hc]
    norm_num
  · intro h
    rw [calculate_ev_cost] at h
    rw [calculate_ev_ev_percent, calculate_ev_ev_dollars, calculate_ev_cost,
      if_pos h]

/-- Witness for C7: a zero exchange price gives `ev_percent = 0` with no
division error, and the 48-cent scenario has positive cost with
`ev_percent = ev_dollars / cost * 100`. -/
theorem C7_ev_percent_guard_witness :
    (calculate_ev 0 (-110) 10).ev_percent = 0 ∧
    (calculate_ev 48 (-110) 10).ev_percent =
      (calculate_ev 48 (-110) 10).ev_dollars / (calculate_ev 48 (-110) 10).cost * 100 := by
  constructor
  · exact (C7_ev_percent_guard 0 (-110) 10).1 (Or.inl rfl)
  · refine (C7_ev_percent_guard 48 (-110) 10).2 ?_
    rw [calculate_ev_cost]
    norm_num

theorem calculate_average_odds_single (o : ℤ) :
    calculate_average_odds [o] = prob_to_american (american_to_probability o) := by
  unfold calculate_average_odds
  simp

theorem pytrunc_intCast (n : ℤ) : pytrunc (n : ℚ) = n := by
  unfold pytrunc
  split <;> simp

theorem american_to_probability_of_nonpos {o : ℤ} (h : o ≤ 0) :
    american_to_probability o = -(o : ℚ) / (-(o : ℚ) + 100) := by
  unfold american_to_probability
  rw [if_neg (by omega : ¬ 0 < o), abs_of_nonpos (by exact_mod_cast h)]

theorem american_to_probability_of_pos {o : ℤ} (h : 0 < o) :
    american_to_probability o = 100 / ((o : ℚ) + 100) := by
  unfold american_to_probability
  rw [if_pos h]

/-- Counterexample for claim C8: the round trip does not reproduce every
nonzero odds within 1.  At +100 the implied probability is exactly 1/2, so
the conversion back takes the `>= 0.5` branch and returns -100, which is 200
away from the original +100. -/
theorem C8_roundtrip_counterexample :
    calculate_average_odds [100] = -100 ∧
    ¬ (calculate_average_odds [100] - 100).natAbs ≤ 1 := by
  have h : calculate_average_odds [100] = -100 := by
    rw [calculate_average_odds_single,
      american_to_probability_of_pos (by norm_num)]
    unfold prob_to_american
    norm_num
    rw [show (-100 : ℚ) = ((-100 : ℤ) : ℚ) by norm_num]
    exact pytrunc_intCast (-100)
  exact ⟨h, by rw [h]; norm_num⟩

/-- Claim C8 as amended: for every American odds `o` with `o <= -100` or
`o > 100`, converting to a probability and back through the sign-convention
branch of `_calculate_average_odds` reproduces `o` exactly (in particular
within the claimed tolerance of 1), so averaging a single-element odds list
returns the original odds; the even-money quote `o = +100` is the exception
forced by the `>= 0.5` branch, which returns the equivalent quote -100. -/
theorem C8_roundtrip_amended (o : ℤ) (h : o ≤ -100 ∨ 100 < o) :
    calculate_average_odds [o] = o := by
  rw [calculate_average_odds_single]
  rcases h with h | h
  · rw [american_to_probability_of_nonpos (by omega)]
    have ha : (100 : ℚ) ≤ -(o : ℚ) := by
      have : (o : ℚ) ≤ -100 := by exact_mod_cast h
      linarith
    have hden : (0 : ℚ) < -(o : ℚ) + 100 := by linarith
    unfold prob_to_american
    rw [if_pos (by rw [le_div_iff hden]; linarith)]
    have hne : -(o : ℚ) + 100 ≠ 0 := ne_of_gt hden
    have harg : -(-(o : ℚ) / (-(o : ℚ) + 100)) /
        (1 - -(o : ℚ) / (-(o : ℚ) + 100)) * 100 = ((o : ℤ) : ℚ) := by
      have h1 : 1 - -(o : ℚ) / (-(o : ℚ) + 100) = 100 / (-(o : ℚ) + 100) := by
        field_simp
      rw [h1]
      field_simp
    rw [harg, pytrunc_intCast]
  · rw [american_to_probability_of_pos (by omega)]
    have ho : (100 : ℚ) < (o : ℚ) := by exact_mod_cast h
    have hden : (0 : ℚ) < (o : ℚ) + 100 := by linarith
    unfold prob_to_american
    rw [if_neg (by rw [not_le, div_lt_iff hden]; linarith)]
    have hne : (o : ℚ) + 100 ≠ 0 := ne_of_gt hden
    have harg : (1 - 100 / ((o : ℚ) + 100)) / (100 / ((o : ℚ) + 100)) * 100 =
        ((o : ℤ) : ℚ) := by
      have h1 : 1 - 100 / ((o : ℚ) + 100) = (o : ℚ) / ((o : ℚ) + 100) := by
        field_simp
      rw [h1]
      field_simp
    rw [harg, pytrunc_intCast]

/-- Witness for C8 at the standard favorite quote -110: the round trip is
exact. -/
theorem C8_roundtrip_amended_witness : calculate_average_odds [-110] = -110 :=
  C8_roundtrip_amended (-110) (Or.inl (by norm_num))

/-- Claim C9: the EV in dollars returned by `calculate_ev` always factors as
`edge * bet_amount`, and for every positive bet amount the positive-EV
classification holds exactly when the edge is positive, independently of the
bet size. -/
theorem C9_ev_equals_edge_times_bet (c : ℚ) (o : ℤ) (b : ℚ) :
    (calculate_ev c o b).ev_dollars = (calculate_ev c o b).edge * b ∧
    (0 < b →
      ((calculate_ev c o b).is_positive_ev = true ↔ 0 < (calculate_ev c o b).edge)) := by
  constructor
  · rw [calculate_ev_ev_dollars, calculate_ev_edge]
    ring
  · intro hb
    rw [calculate_ev_is_positive, calculate_ev_edge, decide_eq_true_eq]
    have hfactor : american_to_probability o * b - c / 100 * b =
        (american_to_probability o - c / 100) * b := by ring
    rw [hfactor]
    exact mul_pos_iff_of_pos_right hb

/-- Witness for C9 in the 48-cent scenario with bet 10: the EV factors as
edge times bet and the positive classification matches a positive edge. -/
theorem C9_ev_equals_edge_times_bet_witness :
    (calculate_ev 48 (-110) 10).ev_dollars = (calculate_ev 48 (-110) 10).edge * 10 ∧
    ((calculate_ev 48 (-110) 10).is_positive_ev = true ↔
      0 < (calculate_ev 48 (-110) 10).edge) := by
  have h := C9_ev_equals_edge_times_bet 48 (-110) 10
  exact ⟨h.1, h.2 (by norm_num)⟩

/-- Counterexample for claim C3: the claim states that a half-point exchange
line is used unchanged by the conversion, but the variant in
`_match_spread` (src/data_processor.py line 421) converts every line as
`-(line - 0.5)`: the exchange spread 7.5 is mapped to -7, of magnitude 7,
not 7.5. -/
theorem C3_half_point_counterexample :
    match_spread_line (15/2) = -7 ∧ ¬ |match_spread_line (15/2)| = 15/2 := by
  unfold match_spread_line
  norm_num

/-- Claim C3 as amended: the conversion in `create_comprehensive_raw_data`
follows the stated rule: a whole-number exchange line is converted to
`line - 0.5` (7 becomes 6.5), a non-integral line such as a half-point is
used unchanged (7.5 stays 7.5), and a Yes purchase maps to the negative
sportsbook spread of that magnitude; the older variant in
`_match_spread` instead converts every line as `-(line - 0.5)`, so a
half-point line 7.5 is mapped to magnitude 7 rather than being kept. -/
theorem C3_line_conversion_amended :
    (∀ l : ℚ, (⌊l⌋ : ℚ) = l →
      comp_converted_line l = l - 1/2 ∧
      comp_sportsbook_line l "Yes" = -(l - 1/2)) ∧
    (∀ l : ℚ, (⌊l⌋ : ℚ) ≠ l → comp_converted_line l = l) ∧
    comp_converted_line 7 = 13/2 ∧
    comp_converted_line (15/2) = 15/2 ∧
    comp_sportsbook_line 7 "Yes" = -(13/2) ∧
    (∀ l : ℚ, match_spread_line l = -(l - 1/2)) ∧
    match_spread_line (15/2) = -7 := by
  have hint : ∀ l : ℚ, (⌊l⌋ : ℚ) = l → comp_converted_line l = l - 1/2 := by
    intro l h
    unfold comp_converted_line
    rw [if_pos h]
  have hfrac : ∀ l : ℚ, (⌊l⌋ : ℚ) ≠ l → comp_converted_line l = l := by
    intro l h
    unfold comp_converted_line
    rw [if_neg h]
  have h7 : (⌊(7 : ℚ)⌋ : ℚ) = 7 := by norm_num
  have h75 : (⌊(15/2 : ℚ)⌋ : ℚ) ≠ 15/2 := by norm_num
  refine ⟨fun l h => ⟨hint l h, ?_⟩, hfrac, ?_, hfrac _ h75, ?_, fun l => rfl, ?_⟩
  · unfold comp_sportsbook_line
    rw [if_pos rfl, hint l h]
  · rw [hint 7 h7]
    norm_num
  · unfold comp_sportsbook_line
    rw [if_pos rfl, hint 7 h7]
    norm_num
  · unfold match_spread_line
    norm_num

/-- Witness for C3 at concrete inputs: whole line 3 converts to 2.5 (Yes side
-2.5) and half-point line 3.5 is kept by the comprehensive conversion. -/
theorem C3_line_conversion_amended_witness :
    comp_converted_line 3 = 3 - 1/2 ∧
    comp_sportsbook_line 3 "Yes" = -(3 - 1/2) ∧
    comp_converted_line (7/2) = 7/2 := by
  have h1 := C3_line_conversion_amended.1 3 (by norm_num)
  have h2 := C3_line_conversion_amended.2.1 (7/2) (by norm_num)
  exact ⟨h1.1, h1.2, h2⟩

/-- Counterexample for claim C6: an exact push is not a distinguishable third
state.  With team score 20, spread -3, opponent score 17 the sum
`20 + (-3) = 17` lands exactly on the opponent score, and the code grades it
0, the same value it gives the outright spread loss at spread -10. -/
theorem C6_push_counterexample :
    ((20 : ℚ) + (-3) = (17 : ℚ)) ∧
    spread_result 20 (-3) 17 = 0 ∧
    ((20 : ℚ) + (-10) < (17 : ℚ)) ∧
    spread_result 20 (-10) 17 = 0 ∧
    spread_result 20 (-3) 17 = spread_result 20 (-10) 17 := by
  unfold spread_result
  norm_num

/-- Claim C6 as amended: spread grading returns 1 when
`team_score + spread_line > opponent_score` and 0 when it is smaller; an
exact push also returns 0, through the `else` branch, so it is coerced to
the losing value instead of being a third state. -/
theorem C6_spread_grading_amended (ts : ℤ) (sl : ℚ) (os : ℤ) :
    ((os : ℚ) < (ts : ℚ) + sl → spread_result ts sl os = 1) ∧
    ((ts : ℚ) + sl < (os : ℚ) → spread_result ts sl os = 0) ∧
    ((ts : ℚ) + sl = (os : ℚ) → spread_result ts sl os = 0) := by
  unfold spread_result
  refine ⟨fun h => if_pos h, fun h => if_neg (by linarith), fun h => if_neg (by linarith)⟩

/-- Witness for C6: a cover (21 - 3 > 17), a miss (20 - 7 < 17) and a push
(20 - 3 = 17) graded through the theorem. -/
theorem C6_spread_grading_amended_witness :
    spread_result 21 (-3) 17 = 1 ∧
    spread_result 20 (-7) 17 = 0 ∧
    spread_result 20 (-3) 17 = 0 := by
  refine ⟨(C6_spread_grading_amended 21 (-3) 17).1 (by norm_num),
    (C6_spread_grading_amended 20 (-7) 17).2.1 (by norm_num),
    (C6_spread_grading_amended 20 (-3) 17).2.2 (by norm_num)⟩

/-- Claim C5: when one exchange moneyline quote matches every quote of a
sportsbook collection, the matcher returns exactly one MatchedPair per
sportsbook row, preserving each bookmaker separately, and never collapses
them into an averaged pair. -/
theorem C5_match_multiplicity (k : KalshiRow) (df : List SBRow)
    (h : ∀ sb ∈ df, ml_pred k sb = true) :
    (match_moneyline k df).length = df.length ∧
    (match_moneyline k df).map MatchedRow.bookmaker = df.map SBRow.bookmaker := by
  unfold match_moneyline
  rw [List.filter_eq_self.mpr h]
  constructor
  · exact List.length_map _ _
  · rw [List.map_map]
    rfl

/-- Witness for C5: one exchange quote against three matching bookmaker
quotes yields exactly three MatchedPairs, one per bookmaker. -/
theorem C5_match_multiplicity_witness :
    (match_moneyline c5_exchange_quote c5_sportsbook_quotes).length = 3 ∧
    (match_moneyline c5_exchange_quote c5_sportsbook_quotes).map MatchedRow.bookmaker =
      ["draftkings", "fanduel", "betmgm"] := by
  have h := C5_match_multiplicity c5_exchange_quote c5_sportsbook_quotes (by decide)
  refine ⟨?_, ?_⟩
  · rw [h.1]
    rfl
  · rw [h.2]
    rfl

theorem kalshi_yes_row_prob (b a : ℤ) :
    (kalshi_yes_row b a).kalshi_probability =
      ((if b = 0 then 50 else b : ℤ) : ℚ) / 100 := rfl

theorem kalshi_no_row_prob (b a : ℤ) :
    (kalshi_no_row b a).kalshi_probability =
      1 - ((if b = 0 then 50 else b : ℤ) : ℚ) / 100 := rfl

/-- Claim C10: for every spread or total market the collector synthesizes a
No row whose probability is exactly one minus the Yes probability, whose
prices are the complements with bid and ask swapped
(`no_bid = 100 - yes_ask`, `no_ask = 100 - yes_bid`), so the probabilities of
the pair sum to one and the bid-ask spread of the No side equals that of the
Yes side. -/
theorem C10_no_side_synthesis (b a : ℤ) :
    (kalshi_no_row b a).kalshi_probability =
      1 - (kalshi_yes_row b a).kalshi_probability ∧
    (kalshi_yes_row b a).kalshi_probability
      + (kalshi_no_row b a).kalshi_probability = 1 ∧
    (kalshi_no_row b a).yes_bid = 100 - a ∧
    (kalshi_no_row b a).yes_ask = 100 - b ∧
    (kalshi_no_row b a).yes_ask - (kalshi_no_row b a).yes_bid =
      (kalshi_yes_row b a).yes_ask - (kalshi_yes_row b a).yes_bid := by
  refine ⟨rfl, ?_, rfl, rfl, ?_⟩
  · rw [kalshi_yes_row_prob, kalshi_no_row_prob]
    ring
  · show (100 - b) - (100 - a) = a - b
    ring

end KalshiEV
